import Mathlib

/-!
# actions-notify-slack-ci: a shallow embedding of `main.go`

Go strings are modelled by Lean `String`s.  The only byte-level operation the
program performs is `strings.Split(_, "\n")`; the separator is a single ASCII
byte, which never occurs inside a multi-byte UTF-8 sequence, so splitting on
characters and splitting on bytes agree.

Effects (standard output, HTTP requests, chat API calls, output file writes)
are made explicit: every effectful function returns the list of events it
performed, in program order, next to its Go result.  The answers of the
outside world are the fields of `World`.
-/

namespace NotifySlack

/-! ## Library functions used by the program -/

/-- Scanner behind `strings.Split` for a non-empty separator: `skip` counts the
separator bytes still to be dropped after a match, `cur` holds the current
piece in reverse. -/
def splitScan (sep : List Char) : Nat → List Char → List Char → List (List Char)
  | _, [], cur => [cur.reverse]
  | skip + 1, _ :: cs, cur => splitScan sep skip cs cur
  | 0, c :: cs, cur =>
    if sep.isPrefixOf (c :: cs) then
      cur.reverse :: splitScan sep (sep.length - 1) cs []
    else
      splitScan sep 0 cs (c :: cur)

/-- Go `strings.Split(s, sep)`: the pieces of `s` between the non-overlapping
occurrences of `sep`, found left to right; an empty `sep` explodes `s` into its
characters. -/
def stringsSplit (s sep : String) : List String :=
  if sep.data = [] then s.data.map (fun c => String.mk [c])
  else (splitScan sep.data 0 s.data []).map String.mk

/-- Directive interpreter behind `fmt.Sprintf`, on the characters of the format
and the operands still to be consumed.  Every operand the program formats is a
string, or an error printed through its message. -/
def sprintfGo : List Char → List String → List Char
  | [], [] => []
  | [], a :: as =>
    "%!(EXTRA ".data ++
      (", ".intercalate ((a :: as).map (fun x => "string=" ++ x))).data ++ ")".data
  | ['%'], [] => "%!(NOVERB)".data
  | ['%'], a :: as =>
    "%!(NOVERB)".data ++ "%!(EXTRA ".data ++
      (", ".intercalate ((a :: as).map (fun x => "string=" ++ x))).data ++ ")".data
  | '%' :: v :: rest, [] =>
    if v = '%' then '%' :: sprintfGo rest []
    else "%!".data ++ v :: "(MISSING)".data ++ sprintfGo rest []
  | '%' :: v :: rest, a :: as =>
    if v = '%' then '%' :: sprintfGo rest (a :: as)
    else if v = 's' ∨ v = 'v' then a.data ++ sprintfGo rest as
    else "%!".data ++ v :: "(string=".data ++ a.data ++ ')' :: sprintfGo rest as
  | c :: rest, args => c :: sprintfGo rest args

/-- Go `fmt.Sprintf(format, a...)` on string operands, for directives made of
a bare verb (no flags, width, precision or argument index, none of which the
program uses): `%s` and `%v` print the operand, `%%` prints a percent sign,
and missing operands, surplus operands and other verbs are reported the way
`fmt` reports them. -/
def Sprintf (format : String) (a : List String) : String :=
  String.mk (sprintfGo format.data a)

/-- Go `fmt.Sprintln(a...)` on string operands: the operands separated by
single spaces, followed by a newline. -/
def Sprintln (a : List String) : String :=
  " ".intercalate a ++ "\n"

/-! ## Data model -/

/-- The constant `GitHubOrganization`. -/
def GitHubOrganization : String := "masmovil"

/-- The constant `PublishJobName`. -/
def PublishJobName : String := "mas-stack/publish:master"

/-- The struct `Commit`. -/
structure Commit where
  url : String
  authorUsername : String
  authorEmail : String
  commitMessage : String
  deriving DecidableEq, Repr

/-- The method `Commit.getCommitMessageTitle`: element 0 of the split of the commit
message at newlines (the split by a non-empty separator is never empty, so the
index is in range and the default is never used). -/
def Commit.getCommitMessageTitle (c : Commit) : String :=
  (stringsSplit c.commitMessage "\n").headD ""

/-- The struct `CommitStatus`. -/
structure CommitStatus where
  Name : String
  Description : String
  Conclusion : String
  Url : String
  deriving DecidableEq, Repr

/-- The method `CommitStatus.Succeeded`. -/
def CommitStatus.Succeeded (o : CommitStatus) : Bool :=
  o.Conclusion == "success"

/-- The method `CommitStatus.Failed`. -/
def CommitStatus.Failed (o : CommitStatus) : Bool :=
  o.Conclusion == "failure" || o.Conclusion == "error"

/-- The struct `GithubUserSSO`, the decoding target of the identity query.  The
chain of anonymous structs `Data.Organization.SAMLIdentityProvider.
ExternalIdentities.Edges[i].Node.SamlIdentity.NameId` is flattened to the
list of the `NameId` fields of the edges. -/
structure GithubUserSSO where
  Edges : List String
  deriving DecidableEq, Repr

/-! ## The outside world -/

/-- The type `*slack.Client`, as built by `slack.New(accessToken)`. -/
structure SlackClient where
  accessToken : String
  deriving DecidableEq, Repr

/-- The type `slack.User`; the program reads its `ID` field only. -/
structure SlackUser where
  ID : String
  deriving DecidableEq, Repr

/-- The request handed to `http.Client.Do`. -/
structure HttpRequest where
  method : String
  url : String
  body : String
  authorization : String
  deriving DecidableEq, Repr

/-- The response of `http.Client.Do`: what `io.ReadAll(resp.Body)` gives (the
body, or an error message) and the error of `resp.Body.Close()`, if any. -/
structure HttpResponse where
  readAll : Except String String
  close : Option String

/-- The function of the program that makes an external call; the world may
answer each call site differently (each site runs at most once in a run). -/
inductive Caller where
  | buildFailedJobChannelMessage
  | sendMessageToUser
  | sendMessageToChannel
  deriving DecidableEq, Repr

/-- Answers of everything outside the program.  Errors are represented by
their messages.  `GetUserByEmail` follows the contract of the chat library: a
user and no error, or no user and an error. -/
structure World where
  /-- Go `os.Getenv`: the empty string for an unset variable. -/
  Getenv : String → String
  /-- Go `http.Client.Do`. -/
  Do : HttpRequest → Except String HttpResponse
  /-- Go `json.Unmarshal` into a `GithubUserSSO`. -/
  Unmarshal : String → Except String GithubUserSSO
  /-- Chat API `client.GetUserByEmail(email)`. -/
  GetUserByEmail : Caller → SlackClient → String → Except String SlackUser
  /-- Chat API `client.PostMessage(channelID, options...)` on the message text,
  giving the channel and the timestamp of the posted message. -/
  PostMessage : Caller → SlackClient → String → String → Except String (String × String)
  /-- Go `os.OpenFile(path, os.O_APPEND|os.O_WRONLY, 0600)`: the error, if any. -/
  OpenFile : Caller → String → Option String

/-- The externally visible actions of a run, in program order. -/
inductive Event where
  /-- Text written to standard output. -/
  | stdout (text : String)
  /-- The call `http.Client.Do(req)`. -/
  | httpDo (req : HttpRequest)
  /-- The call `resp.Body.Close()`. -/
  | closeBody
  /-- The call `client.GetUserByEmail(email)`. -/
  | getUserByEmail (caller : Caller) (client : SlackClient) (email : String)
  /-- The call `client.PostMessage(channelID, MsgOptionText(text, false),
  MsgOptionAsUser(asUser), ...)`, with `MsgOptionDisableLinkUnfurl()` present
  or not. -/
  | postMessage (caller : Caller) (client : SlackClient) (channelID text : String)
      (asUser disableLinkUnfurl : Bool)
  /-- The call `os.OpenFile(path, os.O_APPEND|os.O_WRONLY, 0600)`. -/
  | openFile (caller : Caller) (path : String)
  /-- The call `fmt.Fprintf(f, ...)` on the file opened at `path`. -/
  | fprintf (caller : Caller) (path text : String)
  /-- The deferred call `f.Close()`. -/
  | closeFile (caller : Caller) (path : String)
  deriving DecidableEq, Repr

/-- Go `fmt.Println(a...)` on string operands. -/
def Println (a : List String) : Event :=
  Event.stdout (Sprintln a)

/-- Go `fmt.Printf(format, a...)` on string operands. -/
def Printf (format : String) (a : List String) : Event :=
  Event.stdout (Sprintf format a)

/-- An event is a call of the chat API. -/
def Event.isSlackCall : Event → Bool
  | .getUserByEmail _ _ _ => true
  | .postMessage _ _ _ _ _ _ => true
  | _ => false

/-- An event opens, writes or closes the output sink file. -/
def Event.isOutputWrite : Event → Bool
  | .openFile _ _ => true
  | .fprintf _ _ _ => true
  | .closeFile _ _ => true
  | _ => false

/-- An event is made by the given function of the program. -/
def Event.madeBy (c : Caller) : Event → Bool
  | .getUserByEmail c1 _ _ => c1 == c
  | .postMessage c1 _ _ _ _ _ => c1 == c
  | .openFile c1 _ => c1 == c
  | .fprintf c1 _ _ => c1 == c
  | .closeFile c1 _ => c1 == c
  | _ => false

/-! ## The program -/

/-- The function `getSlackClient`. -/
def getSlackClient (w : World) : SlackClient :=
  let accessToken := w.Getenv "SLACK_ACCESS_TOKEN"
  SlackClient.mk accessToken

/-- The function `buildUserMention`; `none` is the nil `*slack.User`. -/
def buildUserMention (slackUser : Option SlackUser) (githubAuthorUsername : String) : String :=
  let githubAuthorUrl := "https://github.com/" ++ githubAuthorUsername
  match slackUser with
  | some u => "" ++ Sprintf "<@%s> (<%s|%s>)" [u.ID, githubAuthorUrl, githubAuthorUsername]
  | none => "" ++ Sprintf "<%s|%s>" [githubAuthorUrl, githubAuthorUsername]

/-- The function `buildFailedJobChannelMessage`: the message and the events. -/
def buildFailedJobChannelMessage (w : World) (client : SlackClient) (commit : Commit)
    (commitStatus : CommitStatus) : String × List Event :=
  let lookup := Event.getUserByEmail Caller.buildFailedJobChannelMessage client commit.authorEmail
  let r : Option SlackUser × List Event :=
    match w.GetUserByEmail Caller.buildFailedJobChannelMessage client commit.authorEmail with
    | .error err =>
      (none, [lookup, Println ["got error getting slack user by email, defaulting to nil:", err]])
    | .ok slackUser => (some slackUser, [lookup])
  let userMention := buildUserMention r.1 commit.authorUsername
  let message :=
    Sprintf ":warning: The commit <%s|\"_%s_\"> by %s has failed the pipeline step <%s|%s>"
      [commit.url, commit.getCommitMessageTitle, userMention, commitStatus.Url, commitStatus.Name]
  (message, r.2)

/-- The function `buildSuccessPublishDirectMessage`: the message and the events. -/
def buildSuccessPublishDirectMessage (commit : Commit) (commitStatus : CommitStatus) :
    String × List Event :=
  let r : (String × String) × List Event :=
    if commitStatus.Succeeded then
      ((":large_green_circle:", "was successful"), [])
    else if commitStatus.Failed then
      ((":red_circle:", "failed"), [])
    else
      (("", ""), [Println ["got unknown commit status:", commitStatus.Conclusion]])
  let statusEmoji := r.1.1
  let statusDescription := r.1.2
  let message :=
    Sprintf "%s The CI job <%s|%s> for <%s|\"_%s_\"> %s"
      [statusEmoji, commitStatus.Url, commitStatus.Name, commit.url,
        commit.getCommitMessageTitle, statusDescription]
  (message, r.2)

/-- The function `buildCommitStatus`. -/
def buildCommitStatus (w : World) : CommitStatus :=
  { Name := w.Getenv "STATUS_NAME"
    Description := w.Getenv "STATUS_DESCRIPTION"
    Conclusion := w.Getenv "STATUS_CONCLUSION"
    Url := w.Getenv "STATUS_URL" }

/-- The events of the deferred closing of the response body. -/
def closeResponseBody (resp : HttpResponse) : List Event :=
  match resp.close with
  | some closeErr =>
    [Event.closeBody, Println ["got error closing github API response body:", closeErr]]
  | none => [Event.closeBody]

/-- The request built by the first four statements of
`getAuthorEmailFromGithubSSO`: a POST of the fixed GraphQL query for
`authorUsername`, authorized by the token in `GITHUB_ACCESS_TOKEN`.  The call
`http.NewRequest` cannot fail on the constant method and URL it is given. -/
def githubSSORequest (w : World) (authorUsername : String) : HttpRequest :=
  let queryBody :=
    Sprintf ("\x7b\"query\": \"query \x7borganization(login: \\\"%s\\\")\x7bsamlIdentityProvider" ++
        "\x7bexternalIdentities(first: 1, login: \\\"%s\\\") \x7bedges \x7bnode " ++
        "\x7bsamlIdentity \x7bnameId\x7d\x7d\x7d\x7d\x7d\x7d\x7d\"\x7d")
      [GitHubOrganization, authorUsername]
  let accessToken := w.Getenv "GITHUB_ACCESS_TOKEN"
  { method := "POST"
    url := "https://api.github.com/graphql"
    body := queryBody
    authorization := "Bearer " ++ accessToken }

/-- The function `getAuthorEmailFromGithubSSO`: the pair `(authorEmail, err)` of
its named results (`none` is the nil error) and the events. -/
def getAuthorEmailFromGithubSSO (w : World) (authorUsername : String) :
    (String × Option String) × List Event :=
  let req := githubSSORequest w authorUsername
  match w.Do req with
  | .error err =>
    (("", some err),
      [Event.httpDo req, Println ["got error while doing request to github API:", err]])
  | .ok resp =>
    match resp.readAll with
    | .error err =>
      (("", some err),
        [Event.httpDo req, Println ["got error reading github API response body:", err]]
          ++ closeResponseBody resp)
    | .ok body =>
      match w.Unmarshal body with
      | .error err =>
        (("", some err),
          [Event.httpDo req,
            Println ["got error unmarshalling github API response body:", err]]
            ++ closeResponseBody resp)
      | .ok githubAuthorSSO =>
        if githubAuthorSSO.Edges.length = 0 then
          let err := "no external identity edges"
          (("", some err),
            [Event.httpDo req,
              Println ["got zero external identity edges from github api response:", err]]
              ++ closeResponseBody resp)
        else
          ((githubAuthorSSO.Edges.headD "", none),
            [Event.httpDo req] ++ closeResponseBody resp)

/-- The function `buildCommit`: the commit and the events. -/
def buildCommit (w : World) : Commit × List Event :=
  let commit : Commit :=
    { url := w.Getenv "COMMIT_URL"
      authorUsername := w.Getenv "COMMIT_AUTHOR_USERNAME"
      authorEmail := w.Getenv "COMMIT_AUTHOR_EMAIL"
      commitMessage := w.Getenv "COMMIT_MESSAGE" }
  let r := getAuthorEmailFromGithubSSO w commit.authorUsername
  match r.1.2 with
  | some err => (commit, r.2 ++ [Println ["got error getting email from github SSO:", err]])
  | none => ({ commit with authorEmail := r.1.1 }, r.2)

/-- The events of writing the message timestamp and the channel to the file
named by `GITHUB_OUTPUT`, the common tail of both delivery functions. -/
def writeGithubOutput (w : World) (caller : Caller) (respChannel respTimestamp : String) :
    List Event :=
  let githubOutput := w.Getenv "GITHUB_OUTPUT"
  if githubOutput != "" then
    match w.OpenFile caller githubOutput with
    | none =>
      [Event.openFile caller githubOutput,
        Event.fprintf caller githubOutput (Sprintf "slack_message_id=%s\n" [respTimestamp]),
        Event.fprintf caller githubOutput (Sprintf "slack_channel_id=%s\n" [respChannel]),
        Event.closeFile caller githubOutput]
    | some err =>
      [Event.openFile caller githubOutput,
        Printf "could not write outputs to $GITHUB_OUTPUT: %v\n" [err]]
  else
    [Println ["no $GITHUB_OUTPUT environment variable set, skipping output writing"]]

/-- The function `sendMessageToChannel`: its events. -/
def sendMessageToChannel (w : World) (client : SlackClient) (slackChannel message : String) :
    List Event :=
  let post := Event.postMessage Caller.sendMessageToChannel client slackChannel message true true
  match w.PostMessage Caller.sendMessageToChannel client slackChannel message with
  | .error err => [post, Println ["got error posting message to slack channel:", err]]
  | .ok (respChannel, respTimestamp) =>
    [post, Println ["message sent to channel", respChannel, "at", respTimestamp]]
      ++ writeGithubOutput w Caller.sendMessageToChannel respChannel respTimestamp

/-- The function `sendMessageToUser`: its events. -/
def sendMessageToUser (w : World) (client : SlackClient) (userEmail message : String) :
    List Event :=
  let lookup := Event.getUserByEmail Caller.sendMessageToUser client userEmail
  match w.GetUserByEmail Caller.sendMessageToUser client userEmail with
  | .error err => [lookup, Println ["got error getting slack user by email, aborting", err]]
  | .ok slackUser =>
    let post := Event.postMessage Caller.sendMessageToUser client slackUser.ID message true false
    match w.PostMessage Caller.sendMessageToUser client slackUser.ID message with
    | .error err =>
      [lookup, Println ["sending message:", message], post,
        Println ["got error posting message to slack user:", err]]
    | .ok (respChannel, respTimestamp) =>
      [lookup, Println ["sending message:", message], post,
        Println ["message sent to user", respChannel, "at", respTimestamp]]
        ++ writeGithubOutput w Caller.sendMessageToUser respChannel respTimestamp

/-- The function `main`: the events of a run, in order. -/
def main (w : World) : List Event :=
  let slackClient := getSlackClient w
  let c := buildCommit w
  let commit := c.1
  let commitStatus := buildCommitStatus w
  let mustSendChannelMessage := w.Getenv "SEND_MESSAGE_TO_CHANNEL" != "null"
  let slackChannelName := w.Getenv "SEND_MESSAGE_TO_CHANNEL"
  let mustSendDirectMessage := w.Getenv "SEND_MESSAGE_TO_USER" == "true"
  [Println ["Running actions-notify-slack-ci"]] ++ c.2
    ++ (if mustSendDirectMessage then
          let m := buildSuccessPublishDirectMessage commit commitStatus
          [Println ["Sending message to user", commit.authorEmail]] ++ m.2
            ++ sendMessageToUser w slackClient commit.authorEmail m.1
        else [])
    ++ (if mustSendChannelMessage then
          let m := buildFailedJobChannelMessage w slackClient commit commitStatus
          [Println ["Sending message to channel", slackChannelName]] ++ m.2
            ++ sendMessageToChannel w slackClient slackChannelName m.1
        else [])
    ++ (if mustSendDirectMessage && mustSendChannelMessage then
          [Println ["WARNING: Both direct message and channel message will be sent, but only the last one will be outputted to GitHub Actions"]]
        else [])

/-! ## Sample worlds -/

/-- The environment given by a list of variable bindings; any other variable is
unset. -/
def envOf (vars : List (String × String)) (name : String) : String :=
  (vars.lookup name).getD ""

/-- A run with the channel sentinel and no direct message, in which the identity
provider cannot be reached. -/
def worldSilent : World :=
  { Getenv := envOf [("COMMIT_AUTHOR_USERNAME", "octo"), ("COMMIT_AUTHOR_EMAIL", "octo@home.example"),
      ("COMMIT_MESSAGE", "fix: typo\ndetails"), ("SEND_MESSAGE_TO_CHANNEL", "null"),
      ("SEND_MESSAGE_TO_USER", "false"), ("GITHUB_OUTPUT", "/tmp/out")]
    Do := fun _ => .error "dial tcp: i/o timeout"
    Unmarshal := fun _ => .error "unexpected end of JSON input"
    GetUserByEmail := fun _ _ _ => .error "users_not_found"
    PostMessage := fun _ _ _ _ => .error "channel_not_found"
    OpenFile := fun _ _ => none }

/-- A run with a channel and a direct message, in which the identity provider
knows the author, the chat lookup of the direct message fails, and the channel
post succeeds. -/
def worldBoth : World :=
  { Getenv := envOf [("COMMIT_AUTHOR_USERNAME", "octo"), ("COMMIT_AUTHOR_EMAIL", "octo@home.example"),
      ("COMMIT_MESSAGE", "fix: typo\ndetails"), ("SEND_MESSAGE_TO_CHANNEL", "ci-alerts"),
      ("SEND_MESSAGE_TO_USER", "true"), ("STATUS_CONCLUSION", "success"),
      ("GITHUB_OUTPUT", "/tmp/out")]
    Do := fun _ => .ok { readAll := .ok "body", close := none }
    Unmarshal := fun _ => .ok { Edges := ["a@b.com"] }
    GetUserByEmail := fun caller _ _ =>
      if caller = Caller.sendMessageToUser then .error "users_not_found" else .ok { ID := "U1" }
    PostMessage := fun _ _ channelID _ => .ok (channelID, "1700000000.000100")
    OpenFile := fun _ _ => none }

/-- A run in which no variable is set and every external call fails. -/
def worldUnset : World :=
  { Getenv := fun _ => ""
    Do := fun _ => .error "dial tcp: i/o timeout"
    Unmarshal := fun _ => .error "unexpected end of JSON input"
    GetUserByEmail := fun _ _ _ => .error "users_not_found"
    PostMessage := fun _ _ _ _ => .error "channel_not_found"
    OpenFile := fun _ _ => none }

/-- The world `worldUnset`, except that the chat lookup finds the user `U1`. -/
def worldUnsetKnown : World :=
  { worldUnset with GetUserByEmail := fun _ _ _ => .ok { ID := "U1" } }


/-! ## Lemmas on the library functions -/

/-- Splitting at a single character: the first piece is the pending piece
followed by the longest run of the input free of the separator. -/
theorem splitScan_single_head (x : Char) (s cur : List Char) (d : List Char) :
    (splitScan [x] 0 s cur).headD d = cur.reverse ++ s.takeWhile (fun c => c != x) := by
  induction s generalizing cur with
  | nil => simp [splitScan]
  | cons c cs ih =>
    by_cases h : c = x
    · subst h
      simp [splitScan, List.isPrefixOf]
    · have hx : (x == c) = false := by
        simp only [beq_eq_false_iff_ne, ne_eq]
        exact fun e => h e.symm
      have e : splitScan [x] 0 (c :: cs) cur = splitScan [x] 0 cs (c :: cur) := by
        simp [splitScan, List.isPrefixOf, hx]
      rw [e, ih]
      simp [h]

/-- The split by a single-character separator is never empty, so its element 0
exists. -/
theorem splitScan_single_ne_nil (x : Char) (s cur : List Char) :
    splitScan [x] 0 s cur ≠ [] := by
  induction s generalizing cur with
  | nil => simp [splitScan]
  | cons c cs ih =>
    by_cases h : [x].isPrefixOf (c :: cs) = true
    · simp [splitScan, h]
    · simp only [splitScan, h]
      exact ih _

/-- The title of a commit is the longest newline-free start of its message. -/
theorem getCommitMessageTitle_data (c : Commit) :
    c.getCommitMessageTitle.data = c.commitMessage.data.takeWhile (fun a => a != '\n') := by
  have hsep : ("\n" : String).data = ['\n'] := rfl
  have hd := splitScan_single_head '\n' c.commitMessage.data [] []
  unfold Commit.getCommitMessageTitle stringsSplit
  rw [hsep]
  simp only [List.cons_ne_nil, if_false]
  cases hs : splitScan ['\n'] 0 c.commitMessage.data [] with
  | nil => exact absurd hs (splitScan_single_ne_nil _ _ _)
  | cons p ps =>
    rw [hs] at hd
    simpa using hd

/-! ## Claims -/

/-- C1: for a commit message that contains a newline, `getCommitMessageTitle`
returns the substring before the first newline: the title contains no newline
and the message is the title, a newline, and some remainder. -/
theorem getCommitMessageTitle_before_first_newline (c : Commit)
    (h : '\n' ∈ c.commitMessage.data) :
    '\n' ∉ c.getCommitMessageTitle.data ∧
      ∃ rest : String, c.commitMessage = c.getCommitMessageTitle ++ "\n" ++ rest := by
  have ht := getCommitMessageTitle_data c
  constructor
  · rw [ht]
    intro hmem
    have := List.mem_takeWhile_imp hmem
    simp at this
  · have hsplit := List.takeWhile_append_dropWhile (fun a => a != '\n') c.commitMessage.data
    cases hdrop : c.commitMessage.data.dropWhile (fun a => a != '\n') with
    | nil =>
      have hall : ∀ a ∈ c.commitMessage.data, (a != '\n') = true := by
        have := List.dropWhile_eq_nil_iff.mp hdrop
        exact this
      have := hall _ h
      simp at this
    | cons y ys =>
      have hy : y = '\n' := by
        have := List.head_dropWhile_not (fun a => a != '\n') c.commitMessage.data
          (by rw [hdrop]; simp)
        simp only [hdrop, List.head_cons] at this
        simpa using this
      refine ⟨String.mk ys, ?_⟩
      apply String.ext
      rw [hdrop, hy] at hsplit
      simp only [String.data_append, ht]
      exact hsplit.symm.trans (by simp)

/-- Witness for C1 on the message `fix: typo`, newline, `details`. -/
theorem getCommitMessageTitle_before_first_newline_witness :
    '\n' ∈ (Commit.mk "u" "octo" "o@x.io" "fix: typo\ndetails").commitMessage.data ∧
      '\n' ∉ (Commit.mk "u" "octo" "o@x.io" "fix: typo\ndetails").getCommitMessageTitle.data ∧
      ∃ rest : String, (Commit.mk "u" "octo" "o@x.io" "fix: typo\ndetails").commitMessage =
        (Commit.mk "u" "octo" "o@x.io" "fix: typo\ndetails").getCommitMessageTitle ++ "\n" ++ rest :=
  ⟨by decide, getCommitMessageTitle_before_first_newline _ (by decide)⟩

/-- C2: `Succeeded` and `Failed` are never both true, and for a conclusion other
than `success`, `failure` and `error` both are false. -/
theorem succeeded_failed_exclusive (o : CommitStatus) :
    ¬ (o.Succeeded = true ∧ o.Failed = true) ∧
      (o.Conclusion ≠ "success" → o.Conclusion ≠ "failure" → o.Conclusion ≠ "error" →
        o.Succeeded = false ∧ o.Failed = false) := by
  constructor
  · rintro ⟨hs, hf⟩
    simp only [CommitStatus.Succeeded, beq_iff_eq] at hs
    simp [CommitStatus.Failed, hs] at hf
  · intro h1 h2 h3
    simp [CommitStatus.Succeeded, CommitStatus.Failed, h1, h2, h3]

/-- Witness for C2 on the conclusion `cancelled`. -/
theorem succeeded_failed_exclusive_witness :
    (CommitStatus.mk "ci" "" "cancelled" "u").Succeeded = false ∧
      (CommitStatus.mk "ci" "" "cancelled" "u").Failed = false :=
  (succeeded_failed_exclusive (CommitStatus.mk "ci" "" "cancelled" "u")).2
    (by decide) (by decide) (by decide)

/-- C7: `buildSuccessPublishDirectMessage` returns the emoji, the linked job name,
the linked commit title and the outcome phrase; emoji and phrase are the green
circle and `was successful` for a succeeded status, the red circle and `failed`
for a failed one, and both empty for any other conclusion. -/
theorem buildSuccessPublishDirectMessage_message (commit : Commit) (commitStatus : CommitStatus) :
    (buildSuccessPublishDirectMessage commit commitStatus).1 =
      (if commitStatus.Succeeded then ":large_green_circle:"
        else if commitStatus.Failed then ":red_circle:" else "")
      ++ " The CI job <" ++ commitStatus.Url ++ "|" ++ commitStatus.Name ++ "> for <"
      ++ commit.url ++ "|\"_" ++ commit.getCommitMessageTitle ++ "_\"> "
      ++ (if commitStatus.Succeeded then "was successful"
        else if commitStatus.Failed then "failed" else "") := by
  apply String.ext
  unfold buildSuccessPublishDirectMessage
  by_cases hs : commitStatus.Succeeded = true
  · simp [hs, Sprintf, sprintfGo]
  · by_cases hf : commitStatus.Failed = true
    · simp [hs, hf, Sprintf, sprintfGo]
    · simp [hs, hf, Sprintf, sprintfGo]

/-- C8: the channel message always reports a failed pipeline step, whatever the
conclusion of the status: it links the commit title, mentions the author (the
chat user id and the GitHub profile when the lookup found the chat user, the
GitHub profile alone when the lookup failed) and links the status check. -/
theorem buildFailedJobChannelMessage_message (w : World) (client : SlackClient)
    (commit : Commit) (commitStatus : CommitStatus) :
    (buildFailedJobChannelMessage w client commit commitStatus).1 =
      ":warning: The commit <" ++ commit.url ++ "|\"_" ++ commit.getCommitMessageTitle
      ++ "_\"> by "
      ++ (match w.GetUserByEmail Caller.buildFailedJobChannelMessage client commit.authorEmail with
          | .ok slackUser =>
            "<@" ++ slackUser.ID ++ "> (<https://github.com/" ++ commit.authorUsername ++ "|"
              ++ commit.authorUsername ++ ">)"
          | .error _ =>
            "<https://github.com/" ++ commit.authorUsername ++ "|" ++ commit.authorUsername ++ ">")
      ++ " has failed the pipeline step <" ++ commitStatus.Url ++ "|" ++ commitStatus.Name
      ++ ">" := by
  apply String.ext
  unfold buildFailedJobChannelMessage
  cases hl : w.GetUserByEmail Caller.buildFailedJobChannelMessage client commit.authorEmail with
  | error err => simp [buildUserMention, Sprintf, sprintfGo]
  | ok slackUser => simp [buildUserMention, Sprintf, sprintfGo]

/-! ## Lemmas on the events of the program -/

/-- The identity lookup makes no chat API call and does not touch the output
sink. -/
theorem getAuthorEmailFromGithubSSO_events (w : World) (authorUsername : String) :
    ∀ e ∈ (getAuthorEmailFromGithubSSO w authorUsername).2,
      e.isSlackCall = false ∧ e.isOutputWrite = false ∧ ∀ c, e.madeBy c = false := by
  intro e he
  unfold getAuthorEmailFromGithubSSO at he
  simp only at he
  cases hdo : w.Do (githubSSORequest w authorUsername) with
  | error err =>
    simp only [hdo, Println, List.mem_cons, List.mem_singleton, List.not_mem_nil, or_false] at he
    rcases he with rfl | rfl <;> simp [Event.isSlackCall, Event.isOutputWrite, Event.madeBy]
  | ok resp =>
    have hclose : ∀ e ∈ closeResponseBody resp,
        e.isSlackCall = false ∧ e.isOutputWrite = false ∧ ∀ c, e.madeBy c = false := by
      intro e he
      unfold closeResponseBody at he
      cases hc : resp.close with
      | none =>
        simp only [hc, List.mem_singleton] at he
        subst he
        simp [Event.isSlackCall, Event.isOutputWrite, Event.madeBy]
      | some closeErr =>
        simp only [hc, Println, List.mem_cons, List.mem_singleton, List.not_mem_nil,
          or_false] at he
        rcases he with rfl | rfl <;> simp [Event.isSlackCall, Event.isOutputWrite, Event.madeBy]
    simp only [hdo] at he
    cases hr : resp.readAll with
    | error err =>
      simp only [hr, Println, List.mem_append, List.mem_cons, List.not_mem_nil, or_false] at he
      rcases he with (rfl | rfl) | he
      · simp [Event.isSlackCall, Event.isOutputWrite, Event.madeBy]
      · simp [Event.isSlackCall, Event.isOutputWrite, Event.madeBy]
      · exact hclose e he
    | ok body =>
      simp only [hr] at he
      cases hu : w.Unmarshal body with
      | error err =>
        simp only [hu, Println, List.mem_append, List.mem_cons, List.not_mem_nil, or_false] at he
        rcases he with (rfl | rfl) | he
        · simp [Event.isSlackCall, Event.isOutputWrite, Event.madeBy]
        · simp [Event.isSlackCall, Event.isOutputWrite, Event.madeBy]
        · exact hclose e he
      | ok githubAuthorSSO =>
        simp only [hu] at he
        by_cases hz : githubAuthorSSO.Edges.length = 0
        · simp only [hz, if_true, Println, List.mem_append, List.mem_cons, List.not_mem_nil,
            or_false] at he
          rcases he with (rfl | rfl) | he
          · simp [Event.isSlackCall, Event.isOutputWrite, Event.madeBy]
          · simp [Event.isSlackCall, Event.isOutputWrite, Event.madeBy]
          · exact hclose e he
        · simp only [hz, if_false, List.mem_append, List.mem_cons, List.not_mem_nil,
            or_false] at he
          rcases he with rfl | he
          · simp [Event.isSlackCall, Event.isOutputWrite, Event.madeBy]
          · exact hclose e he

/-- Building the commit makes no chat API call and does not touch the output
sink. -/
theorem buildCommit_events (w : World) :
    ∀ e ∈ (buildCommit w).2,
      e.isSlackCall = false ∧ e.isOutputWrite = false ∧ ∀ c, e.madeBy c = false := by
  intro e he
  have hq := getAuthorEmailFromGithubSSO_events w (w.Getenv "COMMIT_AUTHOR_USERNAME")
  unfold buildCommit at he
  simp only at he
  cases herr : (getAuthorEmailFromGithubSSO w (w.Getenv "COMMIT_AUTHOR_USERNAME")).1.2 with
  | none =>
    simp only [herr] at he
    exact hq e he
  | some err =>
    simp only [herr, Println, List.mem_append, List.mem_singleton] at he
    rcases he with he | rfl
    · exact hq e he
    · simp [Event.isSlackCall, Event.isOutputWrite, Event.madeBy]

/-- The channel renderer makes no event of the user delivery. -/
theorem buildFailedJobChannelMessage_events (w : World) (client : SlackClient) (commit : Commit)
    (commitStatus : CommitStatus) :
    ∀ e ∈ (buildFailedJobChannelMessage w client commit commitStatus).2,
      e.madeBy Caller.sendMessageToUser = false := by
  intro e he
  unfold buildFailedJobChannelMessage at he
  cases hl : w.GetUserByEmail Caller.buildFailedJobChannelMessage client commit.authorEmail with
  | error err =>
    simp only [hl, Println, List.mem_cons, List.mem_singleton, List.not_mem_nil, or_false] at he
    rcases he with rfl | rfl <;> simp [Event.madeBy]
  | ok slackUser =>
    simp only [hl, List.mem_singleton] at he
    subst he
    simp [Event.madeBy]

/-- The channel delivery makes no event of the user delivery. -/
theorem sendMessageToChannel_events (w : World) (client : SlackClient)
    (slackChannel message : String) :
    ∀ e ∈ sendMessageToChannel w client slackChannel message,
      e.madeBy Caller.sendMessageToUser = false := by
  intro e he
  unfold sendMessageToChannel at he
  cases hp : w.PostMessage Caller.sendMessageToChannel client slackChannel message with
  | error err =>
    simp only [hp, Println, List.mem_cons, List.mem_singleton, List.not_mem_nil, or_false] at he
    rcases he with rfl | rfl <;> simp [Event.madeBy]
  | ok r =>
    obtain ⟨respChannel, respTimestamp⟩ := r
    simp only [hp, Println, List.mem_append, List.mem_cons, List.not_mem_nil, or_false] at he
    rcases he with (rfl | rfl) | he
    · simp [Event.madeBy]
    · simp [Event.madeBy]
    · unfold writeGithubOutput at he
      by_cases hg : w.Getenv "GITHUB_OUTPUT" = ""
      · simp only [hg, bne_self_eq_false, Bool.false_eq_true, if_false, Println,
          List.mem_singleton] at he
        subst he
        simp [Event.madeBy]
      · have hb : (w.Getenv "GITHUB_OUTPUT" != "") = true := by simpa using hg
        simp only [hb, if_true] at he
        cases ho : w.OpenFile Caller.sendMessageToChannel (w.Getenv "GITHUB_OUTPUT") with
        | none =>
          simp only [ho, List.mem_cons, List.not_mem_nil, or_false] at he
          rcases he with rfl | rfl | rfl | rfl <;> simp [Event.madeBy]
        | some err =>
          simp only [ho, Printf, List.mem_cons, List.not_mem_nil, or_false] at he
          rcases he with rfl | rfl <;> simp [Event.madeBy]

/-- C5: with the channel flag equal to the sentinel `null` and the user flag not
`true`, a run prints its banner, builds the commit and does nothing else: no
event of the run is a chat API call (user lookup or message post) and none
opens or writes the output sink. -/
theorem main_sentinel_no_delivery (w : World)
    (hchannel : w.Getenv "SEND_MESSAGE_TO_CHANNEL" = "null")
    (huser : w.Getenv "SEND_MESSAGE_TO_USER" ≠ "true") :
    main w = Println ["Running actions-notify-slack-ci"] :: (buildCommit w).2 ∧
      ∀ e ∈ main w, e.isSlackCall = false ∧ e.isOutputWrite = false := by
  have hm : main w = Println ["Running actions-notify-slack-ci"] :: (buildCommit w).2 := by
    unfold main
    simp [hchannel, huser]
  refine ⟨hm, ?_⟩
  intro e he
  rw [hm, List.mem_cons] at he
  rcases he with rfl | he
  · simp [Println, Event.isSlackCall, Event.isOutputWrite]
  · exact ⟨(buildCommit_events w e he).1, (buildCommit_events w e he).2.1⟩

/-- Witness for C5 on the run `worldSilent`. -/
theorem main_sentinel_no_delivery_witness :
    main worldSilent = Println ["Running actions-notify-slack-ci"] :: (buildCommit worldSilent).2 ∧
      ∀ e ∈ main worldSilent, e.isSlackCall = false ∧ e.isOutputWrite = false :=
  main_sentinel_no_delivery worldSilent (by decide) (by decide)

/-- C3: when the identity lookup for the author fails (the request errors, the
body cannot be read, or the response does not decode) or decodes to zero
external-identity edges, the commit built by `buildCommit` keeps the author
email of the commit metadata. -/
theorem buildCommit_fallback_email (w : World)
    (h : (∃ err, w.Do (githubSSORequest w (w.Getenv "COMMIT_AUTHOR_USERNAME")) = .error err) ∨
      (∃ resp err, w.Do (githubSSORequest w (w.Getenv "COMMIT_AUTHOR_USERNAME")) = .ok resp ∧
        resp.readAll = .error err) ∨
      (∃ resp body err, w.Do (githubSSORequest w (w.Getenv "COMMIT_AUTHOR_USERNAME")) = .ok resp ∧
        resp.readAll = .ok body ∧ w.Unmarshal body = .error err) ∨
      (∃ resp body sso, w.Do (githubSSORequest w (w.Getenv "COMMIT_AUTHOR_USERNAME")) = .ok resp ∧
        resp.readAll = .ok body ∧ w.Unmarshal body = .ok sso ∧ sso.Edges.length = 0)) :
    (buildCommit w).1.authorEmail = w.Getenv "COMMIT_AUTHOR_EMAIL" := by
  unfold buildCommit getAuthorEmailFromGithubSSO
  rcases h with ⟨err, h1⟩ | ⟨resp, err, h1, h2⟩ | ⟨resp, body, err, h1, h2, h3⟩ |
    ⟨resp, body, sso, h1, h2, h3, h4⟩
  · simp [h1]
  · simp [h1, h2]
  · simp [h1, h2, h3]
  · simp [h1, h2, h3, h4]

/-- Witness for C3 on the run `worldSilent`, whose identity request times out. -/
theorem buildCommit_fallback_email_witness :
    (buildCommit worldSilent).1.authorEmail = "octo@home.example" :=
  buildCommit_fallback_email worldSilent (Or.inl ⟨"dial tcp: i/o timeout", rfl⟩)

/-- C4: when the response of the identity lookup decodes to at least one
external-identity edge, the commit built by `buildCommit` has the `nameId` of the
first edge as author email, whatever the email of the commit metadata. -/
theorem buildCommit_sso_email (w : World) (resp : HttpResponse) (body : String)
    (sso : GithubUserSSO) (nameId : String) (others : List String)
    (hdo : w.Do (githubSSORequest w (w.Getenv "COMMIT_AUTHOR_USERNAME")) = .ok resp)
    (hread : resp.readAll = .ok body)
    (hdecode : w.Unmarshal body = .ok sso)
    (hedges : sso.Edges = nameId :: others) :
    (buildCommit w).1.authorEmail = nameId := by
  unfold buildCommit getAuthorEmailFromGithubSSO
  simp [hdo, hread, hdecode, hedges]

/-- Witness for C4 on the run `worldBoth`: one edge with subject `a@b.com`. -/
theorem buildCommit_sso_email_witness :
    (buildCommit worldBoth).1.authorEmail = "a@b.com" :=
  buildCommit_sso_email worldBoth { readAll := .ok "body", close := none } "body"
    { Edges := ["a@b.com"] } "a@b.com" [] rfl rfl rfl rfl

/-- The user delivery starts with the chat lookup of the recipient. -/
theorem sendMessageToUser_lookup (w : World) (client : SlackClient) (userEmail message : String) :
    Event.getUserByEmail Caller.sendMessageToUser client userEmail ∈
      sendMessageToUser w client userEmail message := by
  unfold sendMessageToUser
  cases hl : w.GetUserByEmail Caller.sendMessageToUser client userEmail with
  | error err => simp
  | ok slackUser =>
    cases hp : w.PostMessage Caller.sendMessageToUser client slackUser.ID message with
    | error err => simp [hp]
    | ok r => simp [hp]

/-- Once the chat lookup found the recipient, the user delivery posts the
message to that user. -/
theorem sendMessageToUser_post (w : World) (client : SlackClient) (userEmail message : String)
    (slackUser : SlackUser)
    (hl : w.GetUserByEmail Caller.sendMessageToUser client userEmail = .ok slackUser) :
    Event.postMessage Caller.sendMessageToUser client slackUser.ID message true false ∈
      sendMessageToUser w client userEmail message := by
  unfold sendMessageToUser
  cases hp : w.PostMessage Caller.sendMessageToUser client slackUser.ID message with
  | error err => simp [hl, hp]
  | ok r => simp [hl, hp]

/-- The channel delivery posts the message to the channel. -/
theorem sendMessageToChannel_post (w : World) (client : SlackClient)
    (slackChannel message : String) :
    Event.postMessage Caller.sendMessageToChannel client slackChannel message true true ∈
      sendMessageToChannel w client slackChannel message := by
  unfold sendMessageToChannel
  cases hp : w.PostMessage Caller.sendMessageToChannel client slackChannel message with
  | error err => simp
  | ok r => simp

/-- C6: with the channel flag set and the user flag `true`, every run, whatever
the outside world answers to any call, looks up the chat user of the author for
the direct message (and posts the direct message when that lookup succeeds),
and posts the failure report to the channel. -/
theorem main_both_deliveries_attempted (w : World)
    (hchannel : w.Getenv "SEND_MESSAGE_TO_CHANNEL" ≠ "null")
    (huser : w.Getenv "SEND_MESSAGE_TO_USER" = "true") :
    Event.getUserByEmail Caller.sendMessageToUser (getSlackClient w) (buildCommit w).1.authorEmail
        ∈ main w ∧
      (∀ slackUser,
        w.GetUserByEmail Caller.sendMessageToUser (getSlackClient w) (buildCommit w).1.authorEmail
          = .ok slackUser →
        Event.postMessage Caller.sendMessageToUser (getSlackClient w) slackUser.ID
          (buildSuccessPublishDirectMessage (buildCommit w).1 (buildCommitStatus w)).1 true false
          ∈ main w) ∧
      Event.postMessage Caller.sendMessageToChannel (getSlackClient w)
        (w.Getenv "SEND_MESSAGE_TO_CHANNEL")
        (buildFailedJobChannelMessage w (getSlackClient w) (buildCommit w).1
          (buildCommitStatus w)).1 true true ∈ main w := by
  have hu := sendMessageToUser_lookup w (getSlackClient w) (buildCommit w).1.authorEmail
    (buildSuccessPublishDirectMessage (buildCommit w).1 (buildCommitStatus w)).1
  have hc := sendMessageToChannel_post w (getSlackClient w) (w.Getenv "SEND_MESSAGE_TO_CHANNEL")
    (buildFailedJobChannelMessage w (getSlackClient w) (buildCommit w).1 (buildCommitStatus w)).1
  refine ⟨?_, ?_, ?_⟩
  · unfold main
    simp only [huser, hchannel, beq_self_eq_true, if_true, List.mem_append]
    exact Or.inl (Or.inl (Or.inr (Or.inr hu)))
  · intro slackUser hl
    have hp := sendMessageToUser_post w (getSlackClient w) (buildCommit w).1.authorEmail
      (buildSuccessPublishDirectMessage (buildCommit w).1 (buildCommitStatus w)).1 slackUser hl
    unfold main
    simp only [huser, hchannel, beq_self_eq_true, if_true, List.mem_append]
    exact Or.inl (Or.inl (Or.inr (Or.inr hp)))
  · unfold main
    simp only [huser, hchannel, bne_iff_ne, ne_eq, not_false_eq_true, decide_True, if_true,
      List.mem_append]
    exact Or.inl (Or.inr (Or.inr hc))

/-- Witness for C6 on the run `worldBoth`: the chat lookup of the direct message
fails, and the channel post is made all the same. -/
theorem main_both_deliveries_attempted_witness :
    Event.getUserByEmail Caller.sendMessageToUser { accessToken := "" } "a@b.com"
        ∈ main worldBoth ∧
      Event.postMessage Caller.sendMessageToChannel { accessToken := "" } "ci-alerts"
        (buildFailedJobChannelMessage worldBoth (getSlackClient worldBoth) (buildCommit worldBoth).1
          (buildCommitStatus worldBoth)).1 true true ∈ main worldBoth :=
  ⟨(main_both_deliveries_attempted worldBoth (by decide) (by decide)).1,
    (main_both_deliveries_attempted worldBoth (by decide) (by decide)).2.2⟩

/-- C9, as stated, fails: for the same commit and the same status, the channel
message differs between a run whose chat lookup fails and a run whose chat
lookup finds the user `U1`. -/
theorem buildFailedJobChannelMessage_depends_on_lookup :
    (buildFailedJobChannelMessage worldUnset { accessToken := "" }
        (Commit.mk "u" "octo" "o@x.io" "fix: typo\ndetails")
        (CommitStatus.mk "ci" "" "failure" "s")).1 ≠
      (buildFailedJobChannelMessage worldUnsetKnown { accessToken := "" }
        (Commit.mk "u" "octo" "o@x.io" "fix: typo\ndetails")
        (CommitStatus.mk "ci" "" "failure" "s")).1 := by
  decide

/-- C9, amended: the direct message renderer makes no external call (its only
events are lines on standard output) and the channel message renderer makes one
chat lookup for the author email; the channel message is the same in any two
runs, for the same commit and status, whose lookups both fail or both find a
user with the same id. -/
theorem renderers_determined_by_inputs_and_lookup (w1 w2 : World) (client1 client2 : SlackClient)
    (commit : Commit) (commitStatus : CommitStatus)
    (h : (w1.GetUserByEmail Caller.buildFailedJobChannelMessage client1
          commit.authorEmail).toOption.map SlackUser.ID =
        (w2.GetUserByEmail Caller.buildFailedJobChannelMessage client2
          commit.authorEmail).toOption.map SlackUser.ID) :
    (buildFailedJobChannelMessage w1 client1 commit commitStatus).1 =
        (buildFailedJobChannelMessage w2 client2 commit commitStatus).1 ∧
      Event.getUserByEmail Caller.buildFailedJobChannelMessage client1 commit.authorEmail ∈
        (buildFailedJobChannelMessage w1 client1 commit commitStatus).2 ∧
      ∀ e ∈ (buildSuccessPublishDirectMessage commit commitStatus).2, ∃ text, e = Event.stdout text := by
  refine ⟨?_, ?_, ?_⟩
  · unfold buildFailedJobChannelMessage
    cases h1 : w1.GetUserByEmail Caller.buildFailedJobChannelMessage client1 commit.authorEmail with
    | error e1 =>
      cases h2 : w2.GetUserByEmail Caller.buildFailedJobChannelMessage client2
          commit.authorEmail with
      | error e2 => rfl
      | ok u2 => simp [h1, h2, Except.toOption] at h
    | ok u1 =>
      cases h2 : w2.GetUserByEmail Caller.buildFailedJobChannelMessage client2
          commit.authorEmail with
      | error e2 => simp [h1, h2, Except.toOption] at h
      | ok u2 =>
        have hid : u1.ID = u2.ID := by simpa [h1, h2, Except.toOption] using h
        simp only [buildUserMention, hid]
  · unfold buildFailedJobChannelMessage
    cases h1 : w1.GetUserByEmail Caller.buildFailedJobChannelMessage client1 commit.authorEmail with
    | error e1 => simp
    | ok u1 => simp
  · intro e he
    unfold buildSuccessPublishDirectMessage at he
    by_cases hs : commitStatus.Succeeded = true
    · simp [hs] at he
    · by_cases hf : commitStatus.Failed = true
      · simp [hs, hf] at he
      · simp only [hs, hf, Println, Bool.false_eq_true, if_false, List.mem_singleton] at he
        exact ⟨_, he⟩

/-- Witness for C9, amended, on two runs whose chat lookups both fail with
different errors. -/
theorem renderers_determined_by_inputs_and_lookup_witness :
    (buildFailedJobChannelMessage worldUnset { accessToken := "t1" }
        (Commit.mk "u" "octo" "o@x.io" "fix: typo\ndetails")
        (CommitStatus.mk "ci" "" "failure" "s")).1 =
      (buildFailedJobChannelMessage worldSilent { accessToken := "t2" }
        (Commit.mk "u" "octo" "o@x.io" "fix: typo\ndetails")
        (CommitStatus.mk "ci" "" "failure" "s")).1 :=
  (renderers_determined_by_inputs_and_lookup worldUnset worldSilent { accessToken := "t1" }
    { accessToken := "t2" } (Commit.mk "u" "octo" "o@x.io" "fix: typo\ndetails")
    (CommitStatus.mk "ci" "" "failure" "s") rfl).1

/-- C10, as stated, fails: in the run `worldUnset`, where the channel flag is
unset and the user flag is not `true`, a message is posted to the channel named
by the empty string. -/
theorem main_unset_channel_posts :
    worldUnset.Getenv "SEND_MESSAGE_TO_CHANNEL" = "" ∧
      worldUnset.Getenv "SEND_MESSAGE_TO_USER" ≠ "true" ∧
      Event.postMessage Caller.sendMessageToChannel { accessToken := "" } ""
        ":warning: The commit <|\"__\"> by <https://github.com/|> has failed the pipeline step <|>"
        true true ∈ main worldUnset := by
  decide

/-- C10, amended: with the channel flag unset (read as the empty string) and the
user flag not `true`, a run makes no user delivery, but it does make the channel
delivery: after the banner and the building of the commit it renders the
failure report and posts it to the channel named by the empty string. -/
theorem main_unset_channel_delivers (w : World)
    (hchannel : w.Getenv "SEND_MESSAGE_TO_CHANNEL" = "")
    (huser : w.Getenv "SEND_MESSAGE_TO_USER" ≠ "true") :
    main w = Println ["Running actions-notify-slack-ci"] :: (buildCommit w).2
        ++ Println ["Sending message to channel", ""]
          :: (buildFailedJobChannelMessage w (getSlackClient w) (buildCommit w).1
              (buildCommitStatus w)).2
        ++ sendMessageToChannel w (getSlackClient w) ""
          (buildFailedJobChannelMessage w (getSlackClient w) (buildCommit w).1
            (buildCommitStatus w)).1 ∧
      Event.postMessage Caller.sendMessageToChannel (getSlackClient w) ""
        (buildFailedJobChannelMessage w (getSlackClient w) (buildCommit w).1
          (buildCommitStatus w)).1 true true ∈ main w ∧
      ∀ e ∈ main w, e.madeBy Caller.sendMessageToUser = false := by
  have hm : main w = Println ["Running actions-notify-slack-ci"] :: (buildCommit w).2
        ++ Println ["Sending message to channel", ""]
          :: (buildFailedJobChannelMessage w (getSlackClient w) (buildCommit w).1
              (buildCommitStatus w)).2
        ++ sendMessageToChannel w (getSlackClient w) ""
          (buildFailedJobChannelMessage w (getSlackClient w) (buildCommit w).1
            (buildCommitStatus w)).1 := by
    unfold main
    simp [hchannel, huser]
  refine ⟨hm, ?_, ?_⟩
  · rw [hm]
    exact List.mem_append_right _ (sendMessageToChannel_post _ _ _ _)
  · intro e he
    rw [hm] at he
    simp only [List.mem_append, List.mem_cons] at he
    rcases he with ((rfl | he) | (rfl | he)) | he
    · simp [Println, Event.madeBy]
    · exact (buildCommit_events w e he).2.2 _
    · simp [Println, Event.madeBy]
    · exact buildFailedJobChannelMessage_events _ _ _ _ e he
    · exact sendMessageToChannel_events _ _ _ _ e he

/-- Witness for C10, amended, on the run `worldUnset`. -/
theorem main_unset_channel_delivers_witness :
    Event.postMessage Caller.sendMessageToChannel (getSlackClient worldUnset) ""
        (buildFailedJobChannelMessage worldUnset (getSlackClient worldUnset)
          (buildCommit worldUnset).1 (buildCommitStatus worldUnset)).1 true true
        ∈ main worldUnset ∧
      ∀ e ∈ main worldUnset, e.madeBy Caller.sendMessageToUser = false :=
  (main_unset_channel_delivers worldUnset (by decide) (by decide)).2

end NotifySlack
